import Mathlib

/-!
Shallow embedding of the PestCare PDF/image bulk downloader
(`src/database/handler.py`, `src/api/client.py`) and verification of the
spec claims about it.

Conventions of the embedding:
* Python `dict`s coming from the JSON API are modelled as functions
  `String → Option JVal` (absent key ↦ `none`).
* SQLite state is modelled explicitly (`DBState`); an `INSERT` into a
  table with a UNIQUE constraint is modelled as an `Except` value whose
  `.error` case is `sqlite3.IntegrityError`.
* Exceptions that a Python function can raise to its caller are modelled
  with `Option`/`Except` return types; a function that swallows an
  exception internally is total.
-/

namespace PestCare

/-! ## Database handler (`src/database/handler.py`) -/

/-- One row of the `download_history` table (the autoincrement id and the
timestamp column play no role in any behaviour and are omitted). -/
structure HistoryRecord where
  filename : String
  category : String
  url : String
deriving Repr, DecidableEq

/-- The persistent SQLite state: the `download_history` table and the
`clients` table (`client_id` primary key ↦ `client_name`). -/
structure DBState where
  download_history : List HistoryRecord
  clients : List (Int × String)
deriving Repr, DecidableEq

/-- The state of a freshly created database (`create_tables` on a new file). -/
def dbInit : DBState := ⟨[], []⟩

/-- Predicate matching rows with the given (filename, category) key. -/
def keyMatches (f c : String) (r : HistoryRecord) : Bool :=
  r.filename == f && r.category == c

/-- Number of `download_history` rows with the given key, on a raw row list. -/
def countKeyL (l : List HistoryRecord) (f c : String) : Nat :=
  (l.filter (keyMatches f c)).length

/-- `DatabaseHandler.is_already_downloaded`: `SELECT 1 FROM download_history
WHERE filename = ? AND category = ?` followed by a non-`None` check. -/
def is_already_downloaded (s : DBState) (f c : String) : Bool :=
  s.download_history.any (keyMatches f c)

/-- The raw SQLite `INSERT INTO download_history (filename, category, url)`
against the schema constraint `UNIQUE(filename, category)`: on a duplicate
key it raises `sqlite3.IntegrityError` (the `.error` case). -/
def sqlite_insert_history (s : DBState) (f c u : String) : Except Unit DBState :=
  if s.download_history.any (keyMatches f c) then
    .error ()
  else
    .ok { s with download_history := s.download_history ++ [⟨f, c, u⟩] }

/-- `DatabaseHandler.add_download_record`, as observed by its caller: the
method body is a `try`/`except sqlite3.IntegrityError: pass`, so a duplicate
key leaves the state unchanged and no exception escapes.  The `Except` layer
records what the caller can observe: `.ok` always. -/
def add_download_record_run (s : DBState) (f c u : String) : Except Unit DBState :=
  match sqlite_insert_history s f c u with
  | .ok s' => .ok s'
  | .error _ => .ok s

/-- The resulting state of `add_download_record` (total, since the method
never raises). -/
def add_download_record (s : DBState) (f c u : String) : DBState :=
  match sqlite_insert_history s f c u with
  | .ok s' => s'
  | .error _ => s

/-- One `INSERT OR REPLACE INTO clients (client_id, client_name)`:
replace in place when the primary key exists, append otherwise. -/
def upsert_client (cs : List (Int × String)) (id : Int) (name : String) :
    List (Int × String) :=
  if cs.any (fun p => p.1 == id) then
    cs.map (fun p => if p.1 == id then (id, name) else p)
  else
    cs ++ [(id, name)]

/-- `DatabaseHandler.sync_clients`: `executemany` of INSERT OR REPLACE over
the client tuples (an empty list is an early return, which coincides with
the fold over the empty list). -/
def sync_clients (s : DBState) (data : List (Int × String)) : DBState :=
  { s with clients := data.foldl (fun cs p => upsert_client cs p.1 p.2) s.clients }

/-- `DatabaseHandler.get_client_name`: lookup by primary key, with the
sentinel `"Unknown Client (id)"` on a miss. -/
def get_client_name (s : DBState) (id : Int) : String :=
  match s.clients.find? (fun p => p.1 == id) with
  | some p => p.2
  | none => "Unknown Client (" ++ toString id ++ ")"

/-- `DatabaseHandler.clear_history`: `DELETE FROM download_history`. -/
def clear_history (s : DBState) : DBState :=
  { s with download_history := [] }

/-- The state-affecting operations of `DatabaseHandler` (the read-only
methods `is_already_downloaded` and `get_client_name` are included as
no-ops so that "any sequence of operations" ranges over the whole API). -/
inductive DBOp where
  | addRecord (f c u : String)
  | clearHistory
  | syncClients (data : List (Int × String))
  | isDownloadedQ (f c : String)
  | getClientNameQ (id : Int)
deriving Repr, DecidableEq

/-- Effect of one handler operation on the database state. -/
def applyOp (s : DBState) : DBOp → DBState
  | .addRecord f c u => add_download_record s f c u
  | .clearHistory => clear_history s
  | .syncClients d => sync_clients s d
  | .isDownloadedQ _ _ => s
  | .getClientNameQ _ => s

/-- Effect of a sequence of handler operations. -/
def applyOps (s : DBState) (ops : List DBOp) : DBState :=
  ops.foldl applyOp s

/-- Number of `download_history` rows with the given key. -/
def countKey (s : DBState) (f c : String) : Nat :=
  countKeyL s.download_history f c

/-! ## JSON values and report dictionaries -/

/-- JSON-shaped Python values as they arrive from the API. -/
inductive JVal where
  | null
  | bool (b : Bool)
  | num (n : Int)
  | str (s : String)
  | list (items : List JVal)
  | dict (fields : List (String × JVal))
deriving Repr

/-- A report record: a Python dict, `report.get(k)` being application
(absent key ↦ `none`, a JSON null ↦ `some .null`). -/
def Report : Type := String → Option JVal

/-- `report[k] = v`: dict item assignment. -/
def setKey (r : Report) (k : String) (v : JVal) : Report :=
  fun q => if q == k then some v else r q

/-- `isinstance(report.get(k), list)`: `True` exactly when the key is
present and holds a list (in particular `False` for an absent key, whose
`.get` is `None`, and for a JSON null). -/
def isListOpt : Option JVal → Bool
  | some (.list _) => true
  | _ => false

/-- The five nested list keys normalised by `_sanitize_report_data`. -/
def list_keys : List String :=
  ["report_detail_feedbacks", "report_detail_treatments", "report_detail_chemicals",
   "report_detail_type_works", "uploaded_files"]

/-- Body of the loop in `PestCareClient._sanitize_report_data`:
`if not isinstance(report.get(key), list): report[key] = []`. -/
def sanitizeStep (rep : Report) (key : String) : Report :=
  if isListOpt (rep key) then rep else setKey rep key (.list [])

/-- `PestCareClient._sanitize_report_data`: normalise every nested list
key to a list, replacing an absent/null/non-list value with `[]`. -/
def sanitize_report_data (r : Report) : Report :=
  list_keys.foldl sanitizeStep r

/-- Python truthiness of a JSON value (`if not x: ...`). -/
def JVal.truthy : JVal → Bool
  | .null => false
  | .bool b => b
  | .num n => n != 0
  | .str s => s != ""
  | .list items => !items.isEmpty
  | .dict fields => !fields.isEmpty

/-- Truthiness of the result of a `.get` (an absent key is `None`, falsy). -/
def truthyOpt : Option JVal → Bool
  | none => false
  | some v => v.truthy

/-- f-string conversion of a JSON scalar (`f"...{x}..."`).  Containers get
an abbreviated rendering: the program only ever interpolates scalar ids and
date strings, and no theorem below depends on the container cases. -/
def JVal.pyStr : JVal → String
  | .null => "None"
  | .bool b => if b then "True" else "False"
  | .num n => toString n
  | .str s => s
  | .list _ => "[...]"
  | .dict _ => "\x7b...\x7d"

/-! ## Name sanitization and category paths (`src/api/client.py`)

The same sanitization expression
`"".join(c for c in name if c.isalnum() or c in (' ', '_')).rstrip()`
appears verbatim at three places: the image dedup/enqueue site
(`_process_images_for_reports`, line 213), the image download worker
(`_download_image_worker`, lines 231-232) and the PDF pipeline
(`_process_pdfs_for_reports`, line 264).  Each site is transcribed as its
own definition so that their agreement is a statement about the program.
`str.isalnum` is modelled by `Char.isAlphanum` and `str.rstrip()` by
dropping trailing whitespace characters; `os.path.join` is modelled with
the separator `"/"` (all sites call the same join, so their agreement does
not depend on the separator). -/

/-- `rstrip()`: drop trailing whitespace characters. -/
def rstripChars (l : List Char) : List Char :=
  (l.reverse.dropWhile Char.isWhitespace).reverse

/-- `os.path.join(a, b, c)`. -/
def pathJoin3 (a b c : String) : String :=
  a ++ "/" ++ b ++ "/" ++ c

/-- The sanitization expression at the image dedup/enqueue site
(`_process_images_for_reports`, line 213). -/
def sanitizeNameEnqueue (name : String) : String :=
  String.mk (rstripChars (name.data.filter (fun c => c.isAlphanum || c == ' ' || c == '_')))

/-- The sanitization expression in the image download worker
(`_download_image_worker`, lines 231-232). -/
def sanitizeNameWorker (name : String) : String :=
  String.mk (rstripChars (name.data.filter (fun c => c.isAlphanum || c == ' ' || c == '_')))

/-- The sanitization expression at the PDF pipeline site
(`_process_pdfs_for_reports`, line 264). -/
def sanitizeNamePdf (name : String) : String :=
  String.mk (rstripChars (name.data.filter (fun c => c.isAlphanum || c == ' ' || c == '_')))

/-- Category path computed at the image dedup/enqueue site (line 213). -/
def imageCategoryEnqueue (technician_name client_name : String) : String :=
  pathJoin3 (sanitizeNameEnqueue technician_name) (sanitizeNameEnqueue client_name) "Foto"

/-- Category path computed in the image download worker (lines 231-233). -/
def imageCategoryWorker (technician_name client_name : String) : String :=
  pathJoin3 (sanitizeNameWorker technician_name) (sanitizeNameWorker client_name) "Foto"

/-- Category path computed at the PDF pipeline site (line 264). -/
def pdfCategory (technician_name client_name : String) : String :=
  pathJoin3 (sanitizeNamePdf technician_name) (sanitizeNamePdf client_name) "STS Reports"

/-! ## Dates (`datetime.strptime(s, "%Y-%m-%d").date()`) -/

/-- A calendar date as produced by `datetime.date`. -/
structure YMDate where
  year : Nat
  month : Nat
  day : Nat
deriving Repr, DecidableEq

/-- Comparison of `datetime.date` objects: lexicographic on
(year, month, day). -/
def dateLe (a b : YMDate) : Bool :=
  decide (a.year < b.year) ||
    (a.year == b.year &&
      (decide (a.month < b.month) ||
        (a.month == b.month && decide (a.day ≤ b.day))))

/-- The Gregorian leap-year rule used by `datetime`. -/
def isLeapYear (y : Nat) : Bool :=
  y % 4 == 0 && (y % 100 != 0 || y % 400 == 0)

/-- Length of a month as validated by the `datetime` constructor. -/
def daysInMonth (y m : Nat) : Nat :=
  if m == 2 then (if isLeapYear y then 29 else 28)
  else if m == 4 || m == 6 || m == 9 || m == 11 then 30
  else 31

/-- Decimal value of a digit string. -/
def digitsToNat (l : List Char) : Nat :=
  l.foldl (fun acc c => acc * 10 + (c.toNat - Char.toNat (Char.ofNat 48))) 0

/-- All characters are ASCII digits. -/
def allDigits (l : List Char) : Bool :=
  l.all Char.isDigit

/-- Split a character list on the literal dash. -/
def splitOnDash : List Char → List (List Char)
  | [] => [[]]
  | c :: rest =>
    let r := splitOnDash rest
    if c == Char.ofNat 45 then [] :: r
    else
      match r with
      | [] => [[c]]
      | h :: t => (c :: h) :: t

/-- `datetime.strptime(s, "%Y-%m-%d").date()`, returning `none` where
Python raises `ValueError`.  CPython's `_strptime` matches `%Y` as exactly
four digits and `%m`/`%d` as one or two digits whose value is in 1..12
resp. 1..31, requires the whole string to match, and the `datetime`
constructor then rejects a day beyond the month's length and a year below
1; all of this is reproduced by the range checks below. -/
def strptime_Ymd (s : String) : Option YMDate :=
  match splitOnDash s.data with
  | [ys, ms, ds] =>
    if allDigits ys && allDigits ms && allDigits ds
        && ys.length == 4
        && decide (1 ≤ ms.length) && decide (ms.length ≤ 2)
        && decide (1 ≤ ds.length) && decide (ds.length ≤ 2) then
      let y := digitsToNat ys
      let m := digitsToNat ms
      let d := digitsToNat ds
      if decide (1 ≤ y) && decide (1 ≤ m) && decide (m ≤ 12)
          && decide (1 ≤ d) && decide (d ≤ daysInMonth y m) then
        some ⟨y, m, d⟩
      else none
    else none
  | _ => none

/-- `datetime.strptime(report.get('date_work'), '%Y-%m-%d').date()` under
the filter's `except (ValueError, TypeError)`: a missing key or a
non-string value makes `strptime` raise `TypeError`, an unparseable string
raises `ValueError`; both are modelled as `none`. -/
def parse_date_work : Option JVal → Option YMDate
  | some (.str s) => strptime_Ymd s
  | _ => none

/-- The per-record test of `_filter_reports_by_date`: the record's
`date_work` parses and `start_date <= report_date <= end_date`. -/
def reportInRange (sd ed : YMDate) (r : Report) : Bool :=
  match parse_date_work (r "date_work") with
  | some d => dateLe sd d && dateLe d ed
  | none => false

/-- `PestCareClient._filter_reports_by_date`.  The two range bounds are
parsed outside any `try`, so an unparseable bound raises `ValueError` to
the caller (the `none` case); each record is then kept exactly when its
`date_work` parses and falls in the closed range. -/
def filter_reports_by_date (reports : List Report) (start_str end_str : String) :
    Option (List Report) :=
  match strptime_Ymd start_str, strptime_Ymd end_str with
  | some sd, some ed => some (reports.filter (reportInRange sd ed))
  | _, _ => none

/-! ## Image download pipeline (`_process_images_for_reports`,
`_download_image_worker`) -/

/-- `dict.get` on a JSON object (the manifests are lists of objects;
`.get` on anything else would raise `AttributeError` in Python — no such
value is produced by the modelled environment). -/
def JVal.get : JVal → String → Option JVal
  | .dict fields, k => (fields.find? (fun p => p.1 == k)).map (fun p => p.2)
  | _, _ => none

/-- `report.get(k, dflt)` rendered as a string (the program immediately
interpolates or sanitizes the result). -/
def getStrD (r : Report) (k : String) (dflt : String) : String :=
  match r k with
  | some v => v.pyStr
  | none => dflt

/-- One queued download job: the dict appended to `files_to_download`
(line 215). -/
structure FileInfo where
  url : String
  filename : String
  technician_name : String
  client_name : String
deriving Repr, DecidableEq

/-- `os.path.splitext(urlparse(file_url).path)[1]`, simplified: strip the
query/fragment, take the last path segment, and return its extension
(empty when the segment has no dot or only leading dots).  The scheme and
authority parts of the URL never contain `?`, `#` or a final extension, so
this agrees with `urlparse` on the URLs the API serves; no theorem depends
on the exact value. -/
def urlPathExt (url : String) : String :=
  let path := url.data.takeWhile (fun c => c != '?' && c != '#')
  let seg := (path.reverse.takeWhile (fun c => c != '/')).reverse
  let after := (seg.reverse.takeWhile (fun c => c != '.')).reverse
  if after.length == seg.length then ""
  else
    let stem := seg.take (seg.length - after.length - 1)
    if stem.all (fun c => c == '.') then "" else String.mk ( '.' :: after)

/-- `os.path.splitext(urlparse(file_url).path)[1] or '.jpg'` (line 211). -/
def image_ext (url : String) : String :=
  let e := urlPathExt url
  if e == "" then ".jpg" else e

/-- Outcome of one worker job, abstracting the network and the disk. -/
inductive JobOutcome where
  /-- `session.get` streams the whole payload and every chunk is written. -/
  | success
  /-- `requests.exceptions.RequestException` from `session.get`,
  `raise_for_status` or `iter_content` — caught by the worker. -/
  | transportFail
  /-- `OSError` from `makedirs`/`open`/`write` — NOT caught by the
  worker's `except requests.exceptions.RequestException`. -/
  | writeFail
deriving Repr, DecidableEq

/-- What a call to `_download_image_worker` does from the pool's point of
view: a normal `(success, filename)` return, or a propagated exception. -/
inductive WorkerResult where
  | ret (ok : Bool) (filename : String)
  | raised
deriving Repr, DecidableEq

/-- Environment of the image pipeline: the per-schedule file manifest
(`/web/api/schedule/file-uploaded`; a `None` fetch result and an empty
list are indistinguishable to the code, both modelled `[]`) and the
network/disk outcome of each job. -/
structure ImageEnv where
  manifest : String → List JVal
  outcome : FileInfo → JobOutcome

/-- `PestCareClient._download_image_worker` (lines 230-244).  The category
is recomputed from the job's names; a history record is added only in the
branch where the payload was fully streamed and written. -/
def download_image_worker (env : ImageEnv) (db : DBState) (fi : FileInfo) :
    DBState × WorkerResult :=
  let category := imageCategoryWorker fi.technician_name fi.client_name
  match env.outcome fi with
  | .writeFail => (db, .raised)
  | .transportFail => (db, .ret false fi.filename)
  | .success =>
      (add_download_record db fi.filename category fi.url, .ret true fi.filename)

/-- The enqueue phase of `_process_images_for_reports` (lines 200-215),
processing one report: skip a falsy `schedule_id`, fetch the manifest,
and queue every file whose (filename, category) key is not yet in the
history store. -/
def collect_files_from_report (env : ImageEnv) (db : DBState) (client_name : String)
    (acc : List FileInfo) (report : Report) : List FileInfo :=
  let schedule_id := report "schedule_id"
  let technician_name := getStrD report "employee_name" "Unknown_Technician"
  if !truthyOpt schedule_id then acc
  else
    let sid := ((report "schedule_id").getD .null).pyStr
    let uploaded_files := env.manifest sid
    if uploaded_files.isEmpty then acc
    else
      uploaded_files.foldl (fun acc file_data =>
        let file_url := file_data.get "filename"
        let file_id := file_data.get "id"
        if !truthyOpt file_url || !truthyOpt file_id then acc
        else
          let url := (file_url.getD .null).pyStr
          let ext := image_ext url
          let filename := "ReportImage_" ++ sid ++ "_" ++ ((file_id.getD .null).pyStr) ++ ext
          let category := imageCategoryEnqueue technician_name client_name
          if is_already_downloaded db filename category then acc
          else acc ++ [⟨url, filename, technician_name, client_name⟩]) acc

/-- One turn of the result loop of `_process_images_for_reports` (lines
221-227): collect the worker's result, bump the counter on success, log a
FAILED line on a `(False, ...)` return and an ERROR line on a propagated
exception, then move on to the next future. -/
def poolStep (env : ImageEnv) (st : DBState × Nat × List String) (fi : FileInfo) :
    DBState × Nat × List String :=
  let (db, count, logs) := st
  let (db', res) := download_image_worker env db fi
  match res with
  | .ret true f => (db', count + 1, logs ++ ["      -> SUCCESS (Image): " ++ f])
  | .ret false f => (db', count, logs ++ ["      -> FAILED (Image): " ++ f])
  | .raised =>
      (db', count, logs ++ ["      -> ERROR downloading " ++ fi.filename])

/-- The worker-pool phase of `_process_images_for_reports` (lines
218-228).  `as_completed` yields futures in a nondeterministic order; the
model processes jobs in submission order (every property proved below is
insensitive to the order). -/
def process_pool (env : ImageEnv) (db : DBState) (files : List FileInfo) :
    DBState × Nat × List String :=
  files.foldl (poolStep env) (db, 0, [])

/-- The history-store footprint of one job: a record is inserted exactly
for a fully streamed and written payload (used to state what the pool
leaves in the store). -/
def recordIfSuccess (env : ImageEnv) (d : DBState) (f : FileInfo) : DBState :=
  if env.outcome f == .success then
    add_download_record d f.filename
      (imageCategoryWorker f.technician_name f.client_name) f.url
  else d

/-- `PestCareClient._process_images_for_reports`: collect the jobs still
missing from the history store, then run the pool (an empty job list
returns 0 immediately). -/
def process_images_for_reports (env : ImageEnv) (db : DBState)
    (reports : List Report) (client_name : String) : DBState × Nat × List String :=
  let files := reports.foldl (collect_files_from_report env db client_name) []
  if files.isEmpty then (db, 0, [])
  else process_pool env db files

/-! ## PDF render pipeline (`_process_pdfs_for_reports`) -/

/-- Observable actions of the PDF pipeline, in the order the code
performs them. -/
inductive PdfEffect where
  /-- the `/web/api/schedule/file-uploaded` refetch (line 260) -/
  | fetchedManifest (schedule_id : String)
  /-- `os.makedirs(pdf_path, exist_ok=True)` (line 271) -/
  | madeDirs (path : String)
  /-- `generate_html_report(...)` — the document composer (line 276) -/
  | composed (schedule_id : String)
  /-- `page.setContent` / `page.pdf` — the rendering-surface submit -/
  | submitted (schedule_id : String)
  /-- the binary PDF landing on disk (`page.pdf({'path': ...})`) -/
  | wroteFile (path : String)
  /-- `add_download_record(filename, category, ...)` (line 283) -/
  | recordedHistory (filename category : String)
deriving Repr, DecidableEq

/-- Environment of the PDF pipeline: the per-schedule manifest (the
`or []` at line 260 folds a `None` fetch into `[]`) and whether the `try`
block (compose, new page, set content, print, close) completes for a
given schedule.  The contract enrichment (branch name, client address)
feeds only the composer and is absorbed into `renderOk`. -/
structure PdfEnv where
  manifest : String → List JVal
  renderOk : String → Bool

/-- `client_name.replace('/', '_')` (line 263). -/
def replaceSlash (s : String) : String :=
  String.mk (s.data.map (fun c => if c == '/' then '_' else c))

/-- The schedule id of a report as the PDF pipeline interpolates it
(after sanitization, which does not touch `schedule_id`). -/
def pdfSid (r : Report) : String :=
  ((sanitize_report_data r "schedule_id").getD .null).pyStr

/-- The technician name the PDF pipeline sanitizes into the category
(`report.get('employee_name', 'Unknown_Technician')`, line 256). -/
def pdfTech (r : Report) : String :=
  getStrD (sanitize_report_data r) "employee_name" "Unknown_Technician"

/-- The PDF target filename (line 263), computed after the manifest
refetch has overwritten `uploaded_files` (which leaves `date_work`
untouched). -/
def pdfFilenameOf (env : PdfEnv) (client_name : String) (r : Report) : String :=
  let r2 := setKey (sanitize_report_data r) "uploaded_files" (.list (env.manifest (pdfSid r)))
  "STS_Report_" ++ replaceSlash client_name ++ "_" ++ getStrD r2 "date_work" "nodate"
    ++ "_" ++ pdfSid r ++ ".pdf"

/-- The loop body of `_process_pdfs_for_reports` (lines 253-287) for one
report, threading (history store, success count, effects).  On a render
failure the code logs and recovers with no history record and no count
increment; which partial effects the failed `try` block performed is
abstracted away (no claim constrains them). -/
def process_one_pdf_report (env : PdfEnv) (client_name output_folder : String)
    (st : DBState × Nat × List PdfEffect) (report0 : Report) :
    DBState × Nat × List PdfEffect :=
  let (db, count, effs) := st
  if !truthyOpt (sanitize_report_data report0 "schedule_id") then (db, count, effs)
  else
    let sid := pdfSid report0
    let effs1 := effs ++ [.fetchedManifest sid]
    let filename := pdfFilenameOf env client_name report0
    let category := pdfCategory (pdfTech report0) client_name
    if is_already_downloaded db filename category then (db, count, effs1)
    else
      let pdf_path := output_folder ++ "/" ++ category
      let effs2 := effs1 ++ [.madeDirs pdf_path]
      let full_file_path := pdf_path ++ "/" ++ filename
      if env.renderOk sid then
        (add_download_record db filename category ("api_generated_" ++ sid),
         count + 1,
         effs2 ++ [.composed sid, .submitted sid, .wroteFile full_file_path,
                   .recordedHistory filename category])
      else (db, count, effs2)

/-- `PestCareClient._process_pdfs_for_reports`: fold the per-report
pipeline over the batch, starting from `count = 0`. -/
def process_pdfs_for_reports (env : PdfEnv) (client_name output_folder : String)
    (db : DBState) (reports : List Report) : DBState × Nat × List PdfEffect :=
  reports.foldl (process_one_pdf_report env client_name output_folder) (db, 0, [])

/-! ## Sync orchestrator (`fetch_and_download_all_data`) -/

/-- The run parameters handed to `fetch_and_download_all_data`. -/
structure RunCfg where
  download_pdfs : Bool
  download_images : Bool
  max_workers : Nat
  output_folder : String
  start_date : String
  end_date : String

/-- The environment of one run: whether `_get_browser` yields a browser,
the fetched client list (`none` models a failed fetch), the contract id
values per client (`contract.get('id')`), the `form-sts` report list per
contract id (a falsy fetch ↦ `[]`), and the two sub-pipeline
environments.  Client records are modelled as (id, name) pairs, as
`sync_clients` requires. -/
structure OrchEnv where
  browser_ok : Bool
  clients_fetch : Option (List (Int × String))
  contracts : Int → List (Option JVal)
  sts_reports : String → List Report
  images : ImageEnv
  pdf : PdfEnv

/-- Accumulated run state: the database plus the two success counters and
the observable output of each sub-pipeline. -/
structure RunState where
  db : DBState
  total_images : Nat
  total_pdfs : Nat
  imageLogs : List String
  pdfEffects : List PdfEffect
deriving Repr, DecidableEq

/-- The final-summary line `f"Downloaded {total_images} new image(s)."`. -/
def imageSummaryLine (n : Nat) : String :=
  "Downloaded " ++ toString n ++ " new image(s)."

/-- The final-summary line `f"Generated {total_pdfs} new PDF report(s)."`. -/
def pdfSummaryLine (n : Nat) : String :=
  "Generated " ++ toString n ++ " new PDF report(s)."

/-- Result of a run that did not raise: the final state and the final
summary block (progress logs other than the per-job lines already kept in
`RunState` are elided). -/
structure RunResult where
  state : RunState
  summary : List String
deriving Repr, DecidableEq

/-- The inner contract loop body (lines 156-180): skip a falsy contract
id, fetch the enrichment (absorbed into `PdfEnv`), fetch the `form-sts`
reports, date-filter them (an unparseable bound raises `ValueError` out
of the run — the `none` case), then dispatch to the image pool and/or the
PDF pipeline.  `pdfs_enabled` is the local `download_pdfs` after the
browser check. -/
def runContract (env : OrchEnv) (cfg : RunCfg) (pdfs_enabled : Bool)
    (client_name : String) (st : RunState) (cid : Option JVal) : Option RunState :=
  if !truthyOpt cid then some st
  else
    let cidStr := (cid.getD .null).pyStr
    let sts := env.sts_reports cidStr
    if sts.isEmpty then some st
    else
      match filter_reports_by_date sts cfg.start_date cfg.end_date with
      | none => none
      | some reports_in_range =>
        if reports_in_range.isEmpty then some st
        else
          let st1 :=
            if cfg.download_images then
              let r := process_images_for_reports env.images st.db reports_in_range client_name
              { st with db := r.1, total_images := st.total_images + r.2.1,
                        imageLogs := st.imageLogs ++ r.2.2 }
            else st
          let st2 :=
            if pdfs_enabled then
              let r := process_pdfs_for_reports env.pdf client_name cfg.output_folder
                st1.db reports_in_range
              { st1 with db := r.1, total_pdfs := st1.total_pdfs + r.2.1,
                         pdfEffects := st1.pdfEffects ++ r.2.2 }
            else st1
          some st2

/-- The per-client loop body (lines 149-180): fetch the contract list
(empty ↦ "No contracts found", continue) and fold the contract loop. -/
def runClient (env : OrchEnv) (cfg : RunCfg) (pdfs_enabled : Bool)
    (st : RunState) (client : Int × String) : Option RunState :=
  let contracts := env.contracts client.1
  if contracts.isEmpty then some st
  else contracts.foldlM (runContract env cfg pdfs_enabled client.2) st

/-- `PestCareClient.fetch_and_download_all_data` (lines 133-185), after a
successful login.  A failed or empty client fetch aborts with no summary;
otherwise the clients are synced, the effective `download_pdfs` becomes
`False` when the browser cannot be obtained, the client dict (id ↦ last
record) is walked, and the final summary emits one count line per pipeline
that is still enabled. -/
def fetch_and_download_all_data (env : OrchEnv) (cfg : RunCfg) (db0 : DBState) :
    Option RunResult :=
  let clients := env.clients_fetch.getD []
  if clients.isEmpty then
    some { state := ⟨db0, 0, 0, [], []⟩, summary := [] }
  else
    let db1 := sync_clients db0 clients
    let pdfs_enabled := cfg.download_pdfs && env.browser_ok
    let clients_dict := clients.foldl (fun a p => upsert_client a p.1 p.2) []
    match clients_dict.foldlM (runClient env cfg pdfs_enabled) ⟨db1, 0, 0, [], []⟩ with
    | none => none
    | some st =>
      some { state := st,
             summary := ["Smart Sync process finished."]
               ++ (if cfg.download_images then [imageSummaryLine st.total_images] else [])
               ++ (if pdfs_enabled then [pdfSummaryLine st.total_pdfs] else []) }

/-- Whether the pool treats a worker outcome as an individual failure
(a `(False, ...)` return is logged FAILED, a propagated exception is
logged ERROR; both leave the job out of the success count). -/
def reportedFailed : WorkerResult → Bool
  | .ret ok _ => !ok
  | .raised => true

/-! ## Concrete sample data (used by the witness theorems below) -/

/-- A report carrying only the given `date_work` string. -/
def reportWithDate (s : String) : Report :=
  fun k => if k == "date_work" then some (.str s) else none

/-- A report with no `date_work` key at all. -/
def reportNoDate : Report := fun _ => none

/-- A report whose `date_work` does not parse as `%Y-%m-%d`. -/
def reportBadDate : Report :=
  fun k => if k == "date_work" then some (.str "15/03/2024") else none

/-- A report whose `date_work` is a JSON null. -/
def reportNullDate : Report :=
  fun k => if k == "date_work" then some .null else none

/-- A sample report with no list key present. -/
def sampleReportC8 : Report :=
  fun k => if k == "schedule_id" then some (.num 7) else none

/-- A sample report with one populated list key and a scalar key. -/
def sampleReportC9 : Report :=
  fun k =>
    if k == "uploaded_files" then some (.list [.num 1])
    else if k == "schedule_id" then some (.num 5) else none

/-- An operation sequence with two duplicate-key inserts interleaved with
unrelated handler operations, none of which clears the history. -/
def opsC1 : List DBOp :=
  [.addRecord "f.pdf" "Tech/ACME/STS Reports" "api_generated_9",
   .syncClients [(1, "ACME")],
   .addRecord "f.pdf" "Tech/ACME/STS Reports" "api_generated_9",
   .addRecord "other.jpg" "Tech/ACME/Foto" "http://x/other.jpg",
   .isDownloadedQ "f.pdf" "Tech/ACME/STS Reports"]

/-- A sample report for the PDF pipeline. -/
def rC3 : Report :=
  fun k =>
    if k == "schedule_id" then some (.num 9)
    else if k == "date_work" then some (.str "2024-03-10")
    else if k == "employee_name" then some (.str "Tech") else none

/-- A PDF environment with an empty manifest and a working renderer. -/
def envC3 : PdfEnv := { manifest := fun _ => [], renderOk := fun _ => true }

/-- A history store already holding the artifact `rC3` would produce. -/
def dbC3 : DBState :=
  ⟨[⟨"STS_Report_ACME_2024-03-10_9.pdf", "Tech/ACME/STS Reports", "x"⟩], []⟩

/-- Three image jobs: one that succeeds, one that fails in transport, one
whose disk write raises. -/
def fiS : FileInfo := ⟨"http://x/s.jpg", "s.jpg", "Tech", "ACME"⟩

def fiT : FileInfo := ⟨"http://x/t.jpg", "t.jpg", "Tech", "ACME"⟩

def fiW : FileInfo := ⟨"http://x/w.jpg", "w.jpg", "Tech", "ACME"⟩

def filesC5 : List FileInfo := [fiS, fiT, fiW]

/-- An image environment giving each of the three jobs its outcome. -/
def envC5 : ImageEnv :=
  { manifest := fun _ => [],
    outcome := fun fi =>
      if fi.filename == "t.jpg" then .transportFail
      else if fi.filename == "w.jpg" then .writeFail
      else .success }

/-- The report driving the concrete orchestrator run. -/
def rC4 : Report :=
  fun k =>
    if k == "schedule_id" then some (.num 11)
    else if k == "date_work" then some (.str "2024-03-10")
    else if k == "employee_name" then some (.str "Tech One") else none

/-- The per-schedule file manifest of the concrete run. -/
def manifestC4 : String → List JVal :=
  fun sid =>
    if sid == "11" then [.dict [("filename", .str "http://x/a.jpg"), ("id", .num 5)]]
    else []

/-- A run environment whose browser initialization fails while one client
with one contract and one in-range report with one image is available. -/
def envC4 : OrchEnv :=
  { browser_ok := false,
    clients_fetch := some [(1, "ACME")],
    contracts := fun cid => if cid == 1 then [some (.num 3)] else [],
    sts_reports := fun s => if s == "3" then [rC4] else [],
    images := { manifest := manifestC4, outcome := fun _ => .success },
    pdf := { manifest := manifestC4, renderOk := fun _ => true } }

/-- A run configuration requesting both images and PDFs. -/
def cfgC4 : RunCfg := ⟨true, true, 4, "out", "2024-03-01", "2024-03-15"⟩

/-- A default result used only to project the concrete run's fields. -/
def defaultRunResult : RunResult := ⟨⟨dbInit, 0, 0, [], []⟩, []⟩

/-! # Verification

## Sanitization of nested list fields -/

theorem sanitizeStep_at (rep : Report) (key k : String) :
    sanitizeStep rep key k =
      if isListOpt (rep key) then rep k
      else if k == key then some (.list []) else rep k := by
  unfold sanitizeStep setKey
  by_cases h : isListOpt (rep key) = true <;> simp [h]

theorem sanitizeStep_keeps_list (rep : Report) (key k : String)
    (h : isListOpt (rep k) = true) : sanitizeStep rep key k = rep k := by
  rw [sanitizeStep_at]
  by_cases hb : isListOpt (rep key) = true
  · simp [hb]
  · by_cases he : (k == key) = true
    · exact absurd (eq_of_beq he ▸ h) hb
    · simp [hb, he]

theorem foldl_sanitize_frame (keys : List String) (rep : Report) (k : String)
    (h : k ∉ keys) : keys.foldl sanitizeStep rep k = rep k := by
  induction keys generalizing rep with
  | nil => rfl
  | cons key rest ih =>
    have h1 : k ≠ key := fun hh => h (hh ▸ List.mem_cons_self key rest)
    have h2 : k ∉ rest := fun hh => h (List.mem_cons_of_mem _ hh)
    rw [List.foldl_cons, ih _ h2, sanitizeStep_at, beq_eq_false_iff_ne.mpr h1]
    by_cases hb : isListOpt (rep key) = true <;> simp [hb]

theorem foldl_sanitize_keeps_list (keys : List String) (rep : Report) (k : String)
    (h : isListOpt (rep k) = true) : keys.foldl sanitizeStep rep k = rep k := by
  induction keys generalizing rep with
  | nil => rfl
  | cons key rest ih =>
    have hstep : sanitizeStep rep key k = rep k := sanitizeStep_keeps_list rep key k h
    rw [List.foldl_cons, ih (sanitizeStep rep key) (by rw [hstep]; exact h), hstep]

theorem sanitizeStep_self_sets (rep : Report) (k : String)
    (h : isListOpt (rep k) = false) : sanitizeStep rep k k = some (.list []) := by
  rw [sanitizeStep_at, h]
  simp

theorem foldl_sanitize_keeps_empty (keys : List String) (rep : Report) (k : String)
    (h : rep k = some (.list [])) :
    keys.foldl sanitizeStep rep k = some (.list []) := by
  induction keys generalizing rep with
  | nil => exact h
  | cons key rest ih =>
    rw [List.foldl_cons]
    apply ih
    rw [sanitizeStep_at]
    by_cases hb : isListOpt (rep key) = true
    · simp [hb, h]
    · by_cases he : (k == key) = true <;> simp [hb, he, h]

theorem foldl_sanitize_sets (keys : List String) (rep : Report) (k : String)
    (hk : k ∈ keys) (h : isListOpt (rep k) = false) :
    keys.foldl sanitizeStep rep k = some (.list []) := by
  induction keys generalizing rep with
  | nil => cases hk
  | cons key rest ih =>
    rw [List.foldl_cons]
    by_cases he : k = key
    · subst he
      exact foldl_sanitize_keeps_empty rest _ k (sanitizeStep_self_sets rep k h)
    · have hk' : k ∈ rest := by
        rcases List.mem_cons.mp hk with h1 | h1
        · exact absurd h1 he
        · exact h1
      have hstep : sanitizeStep rep key k = rep k := by
        rw [sanitizeStep_at, beq_eq_false_iff_ne.mpr he]
        by_cases hb : isListOpt (rep key) = true <;> simp [hb]
      exact ih _ hk' (by rw [hstep]; exact h)

/-- C8: after `_sanitize_report_data`, each of the five nested list keys
holds a list, and a key that was absent, null, or not list-shaped in the
input holds exactly the empty list (the quantification over `r` covers
every subset of missing fields). -/
theorem C8_list_fields_total (r : Report) (k : String) (hk : k ∈ list_keys) :
    isListOpt (sanitize_report_data r k) = true ∧
    (isListOpt (r k) = false → sanitize_report_data r k = some (JVal.list [])) := by
  constructor
  · by_cases h : isListOpt (r k) = true
    · unfold sanitize_report_data
      rw [foldl_sanitize_keeps_list list_keys r k h]; exact h
    · have h' : isListOpt (r k) = false := by
        revert h; cases isListOpt (r k) <;> simp
      unfold sanitize_report_data
      rw [foldl_sanitize_sets list_keys r k hk h']
      rfl
  · intro h
    exact foldl_sanitize_sets list_keys r k hk h

theorem C8_witness :
    "uploaded_files" ∈ list_keys ∧
    isListOpt (sampleReportC8 "uploaded_files") = false ∧
    isListOpt (sanitize_report_data sampleReportC8 "uploaded_files") = true ∧
    sanitize_report_data sampleReportC8 "uploaded_files" = some (JVal.list []) :=
  ⟨by decide, by decide,
   (C8_list_fields_total sampleReportC8 "uploaded_files" (by decide)).1,
   (C8_list_fields_total sampleReportC8 "uploaded_files" (by decide)).2 (by decide)⟩

/-- C9: `_sanitize_report_data` is frame-preserving: a key outside the
five list keys is returned unchanged, and a list key whose value is
already a list keeps its exact value. -/
theorem C9_sanitize_frame (r : Report) (k : String) :
    (k ∉ list_keys → sanitize_report_data r k = r k) ∧
    (isListOpt (r k) = true → sanitize_report_data r k = r k) :=
  ⟨fun h => foldl_sanitize_frame list_keys r k h,
   fun h => foldl_sanitize_keeps_list list_keys r k h⟩

theorem C9_witness :
    ("schedule_id" ∉ list_keys ∧
      sanitize_report_data sampleReportC9 "schedule_id" = sampleReportC9 "schedule_id") ∧
    (isListOpt (sampleReportC9 "uploaded_files") = true ∧
      sanitize_report_data sampleReportC9 "uploaded_files" = sampleReportC9 "uploaded_files") :=
  ⟨⟨by decide, (C9_sanitize_frame sampleReportC9 "schedule_id").1 (by decide)⟩,
   ⟨rfl, (C9_sanitize_frame sampleReportC9 "uploaded_files").2 rfl⟩⟩

/-! ## Frame of clear_history (C10) -/

/-- C10: `clear_history` empties the `download_history` table and leaves
the `clients` table — and hence every `get_client_name` lookup —
unchanged. -/
theorem C10_clear_history_frame (s : DBState) :
    (clear_history s).download_history = [] ∧
    (clear_history s).clients = s.clients ∧
    ∀ id : Int, get_client_name (clear_history s) id = get_client_name s id :=
  ⟨rfl, rfl, fun _ => rfl⟩

/-! ## Category-path agreement (C2) -/

/-- C2: the sanitized category derivation is byte-identical at the image
dedup/enqueue site, the image worker persistence site, and the PDF
pipeline site: all three sanitize names identically, the two image sites
produce the same category string for the same inputs, and the PDF site is
that same derivation joined with its kind folder — so the dedup check,
the file write and the history record agree on the key. -/
theorem C2_category_derivation_agrees (t c : String) :
    sanitizeNameEnqueue t = sanitizeNameWorker t ∧
    sanitizeNameWorker t = sanitizeNamePdf t ∧
    imageCategoryEnqueue t c = imageCategoryWorker t c ∧
    pdfCategory t c =
      pathJoin3 (sanitizeNameWorker t) (sanitizeNameWorker c) "STS Reports" :=
  ⟨rfl, rfl, rfl, rfl⟩

/-! ## Date-window filter (C6, C7) -/

theorem dateLe_refl (d : YMDate) : dateLe d d = true := by
  simp [dateLe]

theorem reportInRange_iff (sd ed : YMDate) (r : Report) :
    reportInRange sd ed r = true ↔
      ∃ d, parse_date_work (r "date_work") = some d ∧
        dateLe sd d = true ∧ dateLe d ed = true := by
  unfold reportInRange
  cases hp : parse_date_work (r "date_work") with
  | none => simp
  | some d =>
    constructor
    · intro h
      simp only [Bool.and_eq_true] at h
      exact ⟨d, rfl, h.1, h.2⟩
    · rintro ⟨d', hd', h1, h2⟩
      injection hd' with hdd
      subst hdd
      simp only [Bool.and_eq_true]
      exact ⟨h1, h2⟩

/-- C6: with parseable bounds, the date filter keeps exactly the records
whose parsed `date_work` lies in the closed interval `[start, end]` (no
time-of-day exists in the `%Y-%m-%d` format): a record dated exactly on
`start` or on `end` is kept, and a record outside either bound — in
particular one day outside — is excluded. -/
theorem C6_date_filter_closed_interval (reports : List Report) (s e : String)
    (sd ed : YMDate) (hs : strptime_Ymd s = some sd) (he : strptime_Ymd e = some ed) :
    ∃ out, filter_reports_by_date reports s e = some out ∧
      (∀ r : Report, r ∈ out ↔ r ∈ reports ∧
        ∃ d, parse_date_work (r "date_work") = some d ∧
          dateLe sd d = true ∧ dateLe d ed = true) ∧
      (dateLe sd ed = true → ∀ r ∈ reports,
        (parse_date_work (r "date_work") = some sd ∨
         parse_date_work (r "date_work") = some ed) → r ∈ out) ∧
      (∀ r ∈ reports, ∀ d, parse_date_work (r "date_work") = some d →
        (dateLe sd d = false ∨ dateLe d ed = false) → r ∉ out) := by
  refine ⟨reports.filter (reportInRange sd ed), ?_, ?_, ?_, ?_⟩
  · unfold filter_reports_by_date; rw [hs, he]
  · intro r
    rw [List.mem_filter, reportInRange_iff]
  · intro hse r hr hd
    rw [List.mem_filter]
    refine ⟨hr, (reportInRange_iff sd ed r).mpr ?_⟩
    rcases hd with h | h
    · exact ⟨sd, h, dateLe_refl sd, hse⟩
    · exact ⟨ed, h, hse, dateLe_refl ed⟩
  · intro r hr d hd hfalse hmem
    rcases List.mem_filter.mp hmem with ⟨-, hin⟩
    rcases (reportInRange_iff sd ed r).mp hin with ⟨d', hd', h1, h2⟩
    rw [hd] at hd'
    injection hd' with hdd
    subst hdd
    rcases hfalse with h | h
    · simp [h] at h1
    · simp [h] at h2

theorem C6_witness :
    strptime_Ymd "2024-03-01" = some ⟨2024, 3, 1⟩ ∧
    strptime_Ymd "2024-03-15" = some ⟨2024, 3, 15⟩ ∧
    (filter_reports_by_date
        [reportWithDate "2024-03-01", reportWithDate "2024-03-15",
         reportWithDate "2024-02-29", reportWithDate "2024-03-16"]
        "2024-03-01" "2024-03-15").isSome = true ∧
    reportWithDate "2024-03-01" ∈
      (filter_reports_by_date
        [reportWithDate "2024-03-01", reportWithDate "2024-03-15",
         reportWithDate "2024-02-29", reportWithDate "2024-03-16"]
        "2024-03-01" "2024-03-15").getD [] ∧
    reportWithDate "2024-03-15" ∈
      (filter_reports_by_date
        [reportWithDate "2024-03-01", reportWithDate "2024-03-15",
         reportWithDate "2024-02-29", reportWithDate "2024-03-16"]
        "2024-03-01" "2024-03-15").getD [] ∧
    reportWithDate "2024-02-29" ∉
      (filter_reports_by_date
        [reportWithDate "2024-03-01", reportWithDate "2024-03-15",
         reportWithDate "2024-02-29", reportWithDate "2024-03-16"]
        "2024-03-01" "2024-03-15").getD [] ∧
    reportWithDate "2024-03-16" ∉
      (filter_reports_by_date
        [reportWithDate "2024-03-01", reportWithDate "2024-03-15",
         reportWithDate "2024-02-29", reportWithDate "2024-03-16"]
        "2024-03-01" "2024-03-15").getD [] := by
  obtain ⟨out, hout, hchar, hbound, hexcl⟩ :=
    C6_date_filter_closed_interval
      [reportWithDate "2024-03-01", reportWithDate "2024-03-15",
       reportWithDate "2024-02-29", reportWithDate "2024-03-16"]
      "2024-03-01" "2024-03-15" ⟨2024, 3, 1⟩ ⟨2024, 3, 15⟩ (by decide) (by decide)
  rw [hout]
  simp only [Option.isSome_some, Option.getD_some]
  refine ⟨by decide, by decide, trivial, ?_, ?_, ?_, ?_⟩
  · exact hbound (by decide) (reportWithDate "2024-03-01") (by simp) (Or.inl (by decide))
  · exact hbound (by decide) (reportWithDate "2024-03-15") (by simp) (Or.inr (by decide))
  · exact hexcl (reportWithDate "2024-02-29") (by simp) ⟨2024, 2, 29⟩ (by decide)
      (Or.inl (by decide))
  · exact hexcl (reportWithDate "2024-03-16") (by simp) ⟨2024, 3, 16⟩ (by decide)
      (Or.inr (by decide))

/-- C7: with parseable bounds the filter returns normally; every record
whose `date_work` is missing, null, or unparseable is silently excluded,
and the remaining records are filtered by the date range as usual. -/
theorem C7_bad_dates_excluded (reports : List Report) (s e : String)
    (sd ed : YMDate) (hs : strptime_Ymd s = some sd) (he : strptime_Ymd e = some ed) :
    ∃ out, filter_reports_by_date reports s e = some out ∧
      (∀ r : Report, parse_date_work (r "date_work") = none → r ∉ out) ∧
      (∀ r ∈ reports, (r ∈ out ↔ reportInRange sd ed r = true)) := by
  refine ⟨reports.filter (reportInRange sd ed), ?_, ?_, ?_⟩
  · unfold filter_reports_by_date; rw [hs, he]
  · intro r hnone hmem
    rcases List.mem_filter.mp hmem with ⟨-, hin⟩
    rcases (reportInRange_iff sd ed r).mp hin with ⟨d, hd, -, -⟩
    rw [hnone] at hd
    cases hd
  · intro r hr
    rw [List.mem_filter]
    exact ⟨fun h => h.2, fun h => ⟨hr, h⟩⟩

theorem C7_witness :
    strptime_Ymd "2024-03-01" = some ⟨2024, 3, 1⟩ ∧
    strptime_Ymd "2024-03-15" = some ⟨2024, 3, 15⟩ ∧
    (filter_reports_by_date
        [reportWithDate "2024-03-10", reportNoDate, reportBadDate, reportNullDate]
        "2024-03-01" "2024-03-15").isSome = true ∧
    reportNoDate ∉
      (filter_reports_by_date
        [reportWithDate "2024-03-10", reportNoDate, reportBadDate, reportNullDate]
        "2024-03-01" "2024-03-15").getD [] ∧
    reportBadDate ∉
      (filter_reports_by_date
        [reportWithDate "2024-03-10", reportNoDate, reportBadDate, reportNullDate]
        "2024-03-01" "2024-03-15").getD [] ∧
    reportNullDate ∉
      (filter_reports_by_date
        [reportWithDate "2024-03-10", reportNoDate, reportBadDate, reportNullDate]
        "2024-03-01" "2024-03-15").getD [] ∧
    reportWithDate "2024-03-10" ∈
      (filter_reports_by_date
        [reportWithDate "2024-03-10", reportNoDate, reportBadDate, reportNullDate]
        "2024-03-01" "2024-03-15").getD [] := by
  obtain ⟨out, hout, hbad, hgood⟩ :=
    C7_bad_dates_excluded
      [reportWithDate "2024-03-10", reportNoDate, reportBadDate, reportNullDate]
      "2024-03-01" "2024-03-15" ⟨2024, 3, 1⟩ ⟨2024, 3, 15⟩ (by decide) (by decide)
  rw [hout]
  simp only [Option.isSome_some, Option.getD_some]
  refine ⟨by decide, by decide, trivial, hbad reportNoDate (by decide),
    hbad reportBadDate (by decide), hbad reportNullDate (by decide),
    (hgood (reportWithDate "2024-03-10") (by simp)).mpr (by decide)⟩

/-! ## History-store dedup invariant (C1) -/

theorem keyMatches_self (f c u : String) : keyMatches f c ⟨f, c, u⟩ = true := by
  simp [keyMatches]

theorem add_download_record_eq (s : DBState) (f c u : String) :
    add_download_record s f c u =
      if s.download_history.any (keyMatches f c) then s
      else { s with download_history := s.download_history ++ [⟨f, c, u⟩] } := by
  unfold add_download_record sqlite_insert_history
  by_cases h : s.download_history.any (keyMatches f c) = true <;> simp [h]

theorem add_download_record_never_raises (s : DBState) (f c u : String) :
    add_download_record_run s f c u = .ok (add_download_record s f c u) := by
  unfold add_download_record_run add_download_record
  cases sqlite_insert_history s f c u <;> rfl

theorem countKey_eq_zero_iff (s : DBState) (f c : String) :
    countKey s f c = 0 ↔ s.download_history.any (keyMatches f c) = false := by
  simp [countKey, countKeyL, List.length_eq_zero, List.filter_eq_nil_iff, List.any_eq_false]

theorem countKey_append_one (s : DBState) (r : HistoryRecord) (f c : String) :
    countKey { s with download_history := s.download_history ++ [r] } f c =
      countKey s f c + (if keyMatches f c r then 1 else 0) := by
  by_cases h : keyMatches f c r = true <;>
    simp [countKey, countKeyL, List.filter_append, h]

theorem countKey_add_same (s : DBState) (f c u : String) (h : countKey s f c ≤ 1) :
    countKey (add_download_record s f c u) f c = 1 := by
  rw [add_download_record_eq]
  by_cases hA : s.download_history.any (keyMatches f c) = true
  · have h0 : countKey s f c ≠ 0 := by
      intro hz
      rw [(countKey_eq_zero_iff s f c).mp hz] at hA
      cases hA
    simp only [hA, if_true]
    omega
  · have hA' : s.download_history.any (keyMatches f c) = false := by
      revert hA; cases s.download_history.any (keyMatches f c) <;> simp
    have h0 : countKey s f c = 0 := (countKey_eq_zero_iff s f c).mpr hA'
    rw [if_neg (by simp [hA']), countKey_append_one, keyMatches_self, if_pos rfl, h0]

theorem countKey_applyOp_le_one (s : DBState) (op : DBOp) (f c : String)
    (h : countKey s f c ≤ 1) : countKey (applyOp s op) f c ≤ 1 := by
  cases op with
  | addRecord f' c' u' =>
    show countKey (add_download_record s f' c' u') f c ≤ 1
    rw [add_download_record_eq]
    by_cases hA : s.download_history.any (keyMatches f' c') = true
    · simpa [hA] using h
    · have hA' : s.download_history.any (keyMatches f' c') = false := by
        revert hA; cases s.download_history.any (keyMatches f' c') <;> simp
      rw [if_neg (by simp [hA']), countKey_append_one]
      by_cases hm : keyMatches f c ⟨f', c', u'⟩ = true
      · have hfc : f' = f ∧ c' = c := by
          simp only [keyMatches, Bool.and_eq_true, beq_iff_eq] at hm
          exact hm
        have h0 : countKey s f c = 0 := by
          refine (countKey_eq_zero_iff s f c).mpr ?_
          rw [← hfc.1, ← hfc.2]
          exact hA'
        rw [hm, if_pos rfl, h0]
      · have hm' : keyMatches f c ⟨f', c', u'⟩ = false := by
          revert hm; cases keyMatches f c (⟨f', c', u'⟩ : HistoryRecord) <;> simp
        rw [hm', if_neg (by simp)]
        omega
  | clearHistory => simp [applyOp, clear_history, countKey, countKeyL]
  | syncClients d => exact h
  | isDownloadedQ f' c' => exact h
  | getClientNameQ id => exact h

theorem countKey_applyOp_ge_one (s : DBState) (op : DBOp) (f c : String)
    (hop : op ≠ .clearHistory) (h : 1 ≤ countKey s f c) :
    1 ≤ countKey (applyOp s op) f c := by
  cases op with
  | addRecord f' c' u' =>
    show 1 ≤ countKey (add_download_record s f' c' u') f c
    rw [add_download_record_eq]
    by_cases hA : s.download_history.any (keyMatches f' c') = true
    · simpa [hA] using h
    · rw [if_neg (by simp [hA]), countKey_append_one]
      exact le_trans h (Nat.le_add_right _ _)
  | clearHistory => exact absurd rfl hop
  | syncClients d => exact h
  | isDownloadedQ f' c' => exact h
  | getClientNameQ id => exact h

theorem countKey_applyOps_keep_one (ops : List DBOp) (s : DBState) (f c : String)
    (hno : DBOp.clearHistory ∉ ops) (h : countKey s f c = 1) :
    countKey (applyOps s ops) f c = 1 := by
  induction ops generalizing s with
  | nil => exact h
  | cons op rest ih =>
    have hop : op ≠ .clearHistory := fun he => hno (he ▸ List.mem_cons_self op rest)
    have hrest : DBOp.clearHistory ∉ rest := fun hm => hno (List.mem_cons_of_mem _ hm)
    have hle := countKey_applyOp_le_one s op f c (le_of_eq h)
    have hge := countKey_applyOp_ge_one s op f c hop (le_of_eq h.symm)
    exact ih (applyOp s op) hrest (le_antisymm hle hge)

theorem countKey_after_adds (ops : List DBOp) (s : DBState) (f c u : String)
    (hle : countKey s f c ≤ 1) (hu : DBOp.addRecord f c u ∈ ops)
    (hnoclear : DBOp.clearHistory ∉ ops) :
    countKey (applyOps s ops) f c = 1 := by
  induction ops generalizing s with
  | nil => cases hu
  | cons op rest ih =>
    have hrest : DBOp.clearHistory ∉ rest := fun hm => hnoclear (List.mem_cons_of_mem _ hm)
    rcases List.mem_cons.mp hu with heq | hmem
    · have h1 : countKey (applyOp s op) f c = 1 := by
        rw [← heq]
        exact countKey_add_same s f c u hle
      exact countKey_applyOps_keep_one rest (applyOp s op) f c hrest h1
    · exact ih (applyOp s op) (countKey_applyOp_le_one s op f c hle) hmem hrest

/-- C1 (amended): in any sequence of handler operations that contains an
`add_download_record` with a given (filename, category) key and no
`clear_history`, the history store ends with exactly one record for that
key — duplicate-key inserts are collapsed by the UNIQUE constraint — and
`add_download_record` never raises to its caller (the inner
`IntegrityError` is swallowed).  The `clear_history` proviso is forced:
the original claim's "interleaved with any other operations" fails when a
`clear_history` follows the insert (see the counterexample). -/
theorem C1_dedup_under_ops (s : DBState) (ops : List DBOp) (f c : String)
    (hle : countKey s f c ≤ 1)
    (hadd : ∃ u, DBOp.addRecord f c u ∈ ops)
    (hnoclear : DBOp.clearHistory ∉ ops) :
    countKey (applyOps s ops) f c = 1 ∧
    ∀ (s' : DBState) (f' c' u' : String),
      add_download_record_run s' f' c' u' = .ok (add_download_record s' f' c' u') := by
  obtain ⟨u, hu⟩ := hadd
  exact ⟨countKey_after_adds ops s f c u hle hu hnoclear,
    fun s' f' c' u' => add_download_record_never_raises s' f' c' u'⟩

theorem C1_witness :
    countKey dbInit "f.pdf" "Tech/ACME/STS Reports" ≤ 1 ∧
    DBOp.addRecord "f.pdf" "Tech/ACME/STS Reports" "api_generated_9" ∈ opsC1 ∧
    DBOp.clearHistory ∉ opsC1 ∧
    countKey (applyOps dbInit opsC1) "f.pdf" "Tech/ACME/STS Reports" = 1 ∧
    add_download_record_run dbC3 "STS_Report_ACME_2024-03-10_9.pdf"
        "Tech/ACME/STS Reports" "y" =
      .ok (add_download_record dbC3 "STS_Report_ACME_2024-03-10_9.pdf"
        "Tech/ACME/STS Reports" "y") :=
  ⟨by decide, by decide, by decide,
   (C1_dedup_under_ops dbInit opsC1 "f.pdf" "Tech/ACME/STS Reports" (by decide)
     ⟨"api_generated_9", by decide⟩ (by decide)).1,
   (C1_dedup_under_ops dbInit opsC1 "f.pdf" "Tech/ACME/STS Reports" (by decide)
     ⟨"api_generated_9", by decide⟩ (by decide)).2 dbC3
     "STS_Report_ACME_2024-03-10_9.pdf" "Tech/ACME/STS Reports" "y"⟩

/-- C1 counterexample: the claim as stated quantifies over sequences
interleaved with *any* other operations; interleaving a `clear_history`
(an operation of the same handler) after the insert leaves zero records
for the key, not exactly one. -/
theorem C1_counterexample :
    DBOp.addRecord "a.jpg" "Tech/ACME/Foto" "http://x/a.jpg" ∈
      [DBOp.addRecord "a.jpg" "Tech/ACME/Foto" "http://x/a.jpg", DBOp.clearHistory] ∧
    countKey (applyOps dbInit
      [DBOp.addRecord "a.jpg" "Tech/ACME/Foto" "http://x/a.jpg", DBOp.clearHistory])
      "a.jpg" "Tech/ACME/Foto" = 0 ∧
    ¬ countKey (applyOps dbInit
      [DBOp.addRecord "a.jpg" "Tech/ACME/Foto" "http://x/a.jpg", DBOp.clearHistory])
      "a.jpg" "Tech/ACME/Foto" = 1 := by
  decide

/-! ## PDF pipeline skip path (C3) -/

/-- C3: when the target (filename, category) of a report is already in
the history store, the per-report PDF pipeline reaches its skip exit
right after the manifest refetch: no directory creation, no compose, no
submit to the rendering surface, no file write, no history record, and
the PDF success counter is unchanged. -/
theorem C3_duplicate_report_skipped (env : PdfEnv) (client_name output_folder : String)
    (db : DBState) (count : Nat) (effs : List PdfEffect) (r : Report)
    (hsid : truthyOpt (sanitize_report_data r "schedule_id") = true)
    (hdup : is_already_downloaded db (pdfFilenameOf env client_name r)
              (pdfCategory (pdfTech r) client_name) = true) :
    process_one_pdf_report env client_name output_folder (db, count, effs) r
      = (db, count, effs ++ [.fetchedManifest (pdfSid r)]) := by
  simp [process_one_pdf_report, hsid, hdup]

theorem C3_witness :
    truthyOpt (sanitize_report_data rC3 "schedule_id") = true ∧
    is_already_downloaded dbC3 (pdfFilenameOf envC3 "ACME" rC3)
      (pdfCategory (pdfTech rC3) "ACME") = true ∧
    process_one_pdf_report envC3 "ACME" "out" (dbC3, 0, []) rC3
      = (dbC3, 0, [] ++ [.fetchedManifest (pdfSid rC3)]) :=
  ⟨by decide, by decide,
   C3_duplicate_report_skipped envC3 "ACME" "out" dbC3 0 [] rC3 (by decide) (by decide)⟩

/-! ## Download-pool failure isolation (C5) -/

theorem poolStep_eq (env : ImageEnv) (db : DBState) (count : Nat)
    (logs : List String) (fi : FileInfo) :
    poolStep env (db, count, logs) fi =
      (recordIfSuccess env db fi,
       count + (if env.outcome fi == .success then 1 else 0),
       logs ++ [match env.outcome fi with
                | .success => "      -> SUCCESS (Image): " ++ fi.filename
                | .transportFail => "      -> FAILED (Image): " ++ fi.filename
                | .writeFail => "      -> ERROR downloading " ++ fi.filename]) := by
  cases h : env.outcome fi <;>
    simp [poolStep, download_image_worker, recordIfSuccess, h]

theorem pool_db_eq (env : ImageEnv) (files : List FileInfo) :
    ∀ (db : DBState) (count : Nat) (logs : List String),
      (files.foldl (poolStep env) (db, count, logs)).1 =
        files.foldl (recordIfSuccess env) db := by
  induction files with
  | nil => intro db count logs; rfl
  | cons fi rest ih =>
    intro db count logs
    rw [List.foldl_cons, poolStep_eq, List.foldl_cons]
    exact ih _ _ _

theorem pool_count_eq (env : ImageEnv) (files : List FileInfo) :
    ∀ (db : DBState) (count : Nat) (logs : List String),
      (files.foldl (poolStep env) (db, count, logs)).2.1 =
        count + (files.filter (fun f => env.outcome f == .success)).length := by
  induction files with
  | nil => intro db count logs; simp
  | cons fi rest ih =>
    intro db count logs
    rw [List.foldl_cons, poolStep_eq, ih]
    by_cases h : (env.outcome fi == .success) = true
    all_goals simp [List.filter_cons, h]
    all_goals omega

theorem pool_logs_len (env : ImageEnv) (files : List FileInfo) :
    ∀ (db : DBState) (count : Nat) (logs : List String),
      (files.foldl (poolStep env) (db, count, logs)).2.2.length =
        logs.length + files.length := by
  induction files with
  | nil => intro db count logs; simp
  | cons fi rest ih =>
    intro db count logs
    rw [List.foldl_cons, poolStep_eq, ih]
    simp
    omega

/-- C5: a job whose transport or disk write fails leaves no history
record and is reported as an individual failure (a FAILED return, or a
propagated exception the pool logs as ERROR); the pool still yields one
result line per submitted job, counts exactly the fully-streamed
successes, and the final store is the input store with exactly the
successful jobs' records applied — failures neither roll back nor block
sibling jobs. -/
theorem C5_failures_isolated (env : ImageEnv) (db : DBState)
    (files : List FileInfo) (fi : FileInfo)
    (hfail : env.outcome fi ≠ .success) :
    (download_image_worker env db fi).1 = db ∧
    reportedFailed (download_image_worker env db fi).2 = true ∧
    (process_pool env db files).2.2.length = files.length ∧
    (process_pool env db files).2.1 =
      (files.filter (fun f => env.outcome f == .success)).length ∧
    (process_pool env db files).1 = files.foldl (recordIfSuccess env) db := by
  refine ⟨?_, ?_, ?_, ?_, ?_⟩
  · cases h : env.outcome fi
    · exact absurd h hfail
    · simp [download_image_worker, h]
    · simp [download_image_worker, h]
  · cases h : env.outcome fi
    · exact absurd h hfail
    · simp [download_image_worker, reportedFailed, h]
    · simp [download_image_worker, reportedFailed, h]
  · simpa [process_pool] using pool_logs_len env files db 0 []
  · simpa [process_pool] using pool_count_eq env files db 0 []
  · exact pool_db_eq env files db 0 []

theorem C5_witness :
    envC5.outcome fiT ≠ JobOutcome.success ∧
    ((download_image_worker envC5 dbInit fiT).1 = dbInit ∧
     reportedFailed (download_image_worker envC5 dbInit fiT).2 = true ∧
     (process_pool envC5 dbInit filesC5).2.2.length = filesC5.length ∧
     (process_pool envC5 dbInit filesC5).2.1 =
       (filesC5.filter (fun f => envC5.outcome f == .success)).length ∧
     (process_pool envC5 dbInit filesC5).1 =
       filesC5.foldl (recordIfSuccess envC5) dbInit) :=
  ⟨by decide, C5_failures_isolated envC5 dbInit filesC5 fiT (by decide)⟩

/-! ## Orchestrator under a failed browser initialization (C4) -/

theorem foldlM_opt_inv {α σ : Type} (P : σ → Prop) (f : σ → α → Option σ)
    (hf : ∀ s a s', f s a = some s' → P s → P s') :
    ∀ (l : List α) (s s' : σ), l.foldlM f s = some s' → P s → P s' := by
  intro l
  induction l with
  | nil =>
    intro s s' h hP
    rw [List.foldlM_nil] at h
    injection h with h
    exact h ▸ hP
  | cons a t ih =>
    intro s s' h hP
    rw [List.foldlM_cons] at h
    cases hfa : f s a with
    | none => rw [hfa] at h; cases h
    | some s1 =>
      rw [hfa] at h
      simp only [Option.bind_eq_bind, Option.some_bind] at h
      exact ih s1 s' h (hf s a s1 hfa hP)

theorem runContract_no_pdf_activity (env : OrchEnv) (cfg : RunCfg)
    (cn : String) (st : RunState) (cid : Option JVal) (st' : RunState)
    (h : runContract env cfg false cn st cid = some st') :
    st'.total_pdfs = st.total_pdfs ∧ st'.pdfEffects = st.pdfEffects := by
  simp only [runContract, Bool.false_eq_true, if_false] at h
  split at h
  · injection h with h
    subst h
    exact ⟨rfl, rfl⟩
  · split at h
    · injection h with h
      subst h
      exact ⟨rfl, rfl⟩
    · split at h
      · cases h
      · split at h
        · injection h with h
          subst h
          exact ⟨rfl, rfl⟩
        · split at h
          · injection h with h
            subst h
            exact ⟨rfl, rfl⟩
          · injection h with h
            subst h
            exact ⟨rfl, rfl⟩

theorem runClient_no_pdf_activity (env : OrchEnv) (cfg : RunCfg)
    (st : RunState) (cl : Int × String) (st' : RunState)
    (h : runClient env cfg false st cl = some st') :
    st'.total_pdfs = st.total_pdfs ∧ st'.pdfEffects = st.pdfEffects := by
  simp only [runClient] at h
  split at h
  · injection h with h
    subst h
    exact ⟨rfl, rfl⟩
  · exact foldlM_opt_inv
      (fun x => x.total_pdfs = st.total_pdfs ∧ x.pdfEffects = st.pdfEffects)
      (runContract env cfg false cl.2)
      (fun s a s' hf hP => by
        obtain ⟨h1, h2⟩ := runContract_no_pdf_activity env cfg cl.2 s a s' hf
        exact ⟨h1.trans hP.1, h2.trans hP.2⟩)
      (env.contracts cl.1) st st' h ⟨rfl, rfl⟩

/-- C4 (amended): if browser initialization fails while PDFs were
requested, the run is identical to the same run with PDF production
disabled from the start — so no document artifact is produced, the PDF
counter is 0, no PDF pipeline effect occurs, and image production
proceeds exactly as it would in a download-only run — and the final
summary consists of the finish line plus (when images were requested) the
image-count line only: the code omits the document-count line instead of
reporting 0 documents. -/
theorem C4_browser_failure_disables_pdfs (env : OrchEnv) (cfg : RunCfg) (db0 : DBState)
    (hp : cfg.download_pdfs = true) (hb : env.browser_ok = false) :
    fetch_and_download_all_data env cfg db0 =
      fetch_and_download_all_data env { cfg with download_pdfs := false } db0 ∧
    ∀ res, fetch_and_download_all_data env cfg db0 = some res →
      res.state.total_pdfs = 0 ∧ res.state.pdfEffects = [] ∧
      (res.summary = [] ∨
        res.summary = ["Smart Sync process finished."] ++
          (if cfg.download_images then [imageSummaryLine res.state.total_images] else [])) := by
  obtain ⟨a, di, mw, o, s, e⟩ := cfg
  simp only at hp
  subst hp
  have hrc : runClient env ⟨true, di, mw, o, s, e⟩ false
      = runClient env ⟨false, di, mw, o, s, e⟩ false := rfl
  constructor
  · simp only [fetch_and_download_all_data, hb, Bool.and_false, hrc]
  · intro res hres
    simp only [fetch_and_download_all_data, hb, Bool.and_false, Bool.false_eq_true,
      if_false, List.append_nil] at hres
    split at hres
    · injection hres with h
      subst h
      simp
    · split at hres
      · cases hres
      · next st hst =>
        injection hres with h
        subst h
        have hinv :
            st.total_pdfs = 0 ∧ st.pdfEffects = [] := by
          refine foldlM_opt_inv (fun x => x.total_pdfs = 0 ∧ x.pdfEffects = [])
            (runClient env ⟨true, di, mw, o, s, e⟩ false)
            (fun s1 a1 s1' hf hP => by
              obtain ⟨h1, h2⟩ :=
                runClient_no_pdf_activity env ⟨true, di, mw, o, s, e⟩ s1 a1 s1' hf
              exact ⟨h1.trans hP.1, h2.trans hP.2⟩) _ _ _ hst ⟨rfl, rfl⟩
        refine ⟨hinv.1, hinv.2, Or.inr ?_⟩
        simp

theorem C4_witness :
    cfgC4.download_pdfs = true ∧ envC4.browser_ok = false ∧
    fetch_and_download_all_data envC4 cfgC4 dbInit =
      fetch_and_download_all_data envC4 { cfgC4 with download_pdfs := false } dbInit :=
  ⟨rfl, rfl, (C4_browser_failure_disables_pdfs envC4 cfgC4 dbInit rfl rfl).1⟩

/-- C4 counterexample: a concrete run that requests PDFs, fails browser
initialization, and downloads one image.  No document is produced and
image production proceeds, but the final summary is exactly the finish
line plus the image line — it does not report 0 documents (the line
`"Generated 0 new PDF report(s)."` is absent), contradicting the claim's
"the final summary reports 0 documents". -/
theorem C4_counterexample :
    (fetch_and_download_all_data envC4 cfgC4 dbInit).isSome = true ∧
    ((fetch_and_download_all_data envC4 cfgC4 dbInit).getD defaultRunResult).state.total_pdfs
      = 0 ∧
    ((fetch_and_download_all_data envC4 cfgC4 dbInit).getD defaultRunResult).state.total_images
      = 1 ∧
    ((fetch_and_download_all_data envC4 cfgC4 dbInit).getD defaultRunResult).summary
      = ["Smart Sync process finished.", imageSummaryLine 1] ∧
    pdfSummaryLine 0 ∉
      ((fetch_and_download_all_data envC4 cfgC4 dbInit).getD defaultRunResult).summary := by
  decide

end PestCare
